import Mathlib

/-!
Verification of the Field59 video API service (the `field59Api` service
module of the video asset manager).

The service runs in a browser: XML response bodies are parsed by the ambient
`DOMParser` into a DOM tree, and the service code only ever touches the tree
through `querySelector` / `querySelectorAll` / `textContent`.  We therefore
embed the code at the DOM level: an `XmlNode` models a parsed DOM node,
where a `<![CDATA[x]]>` section in the document becomes a `cdata x` node
whose `textContent` is `x` (standard DOM semantics), and plain character
data becomes a `text` node.  All service functions (`getCData`,
`parseXMLResponse`, `convertToLocalVideo`, and the four transport methods'
response and error handling) are translated directly from the source; the
JS builtins the source calls (`Number`, `String.prototype.split`, `||`, and
the regex `^\[CDATA\[(.*)\]\]$`) are modelled explicitly.
-/

mutual

/-- A parsed DOM node.  `elem` is an element with a tag name and child
nodes; `text` is a character-data node; `cdata` is a CDATA section (whose
`textContent`, per the DOM, is the enclosed characters). -/
inductive XmlNode where
  | elem (tag : String) (children : XmlForest)
  | text (s : String)
  | cdata (s : String)
deriving DecidableEq

/-- A list of sibling DOM nodes (a separate inductive rather than
`List XmlNode`, so that recursion over the tree is structural). -/
inductive XmlForest where
  | nil
  | cons (n : XmlNode) (f : XmlForest)
deriving DecidableEq

end

/-- Build a sibling forest from a list of nodes. -/
def forestOf : List XmlNode → XmlForest
  | [] => .nil
  | n :: ns => .cons n (forestOf ns)

mutual

/-- DOM `Node.textContent`: concatenation of all descendant character
data. -/
def XmlNode.textContent : XmlNode → String
  | .elem _ cs => cs.textAll
  | .text s => s
  | .cdata s => s

/-- `textContent` of a sibling forest, in document order. -/
def XmlForest.textAll : XmlForest → String
  | .nil => ""
  | .cons n f => n.textContent ++ f.textAll

end

mutual

/-- Strict descendants of a node, in document (preorder) order. -/
def XmlNode.descendants : XmlNode → List XmlNode
  | .elem _ cs => cs.descAll
  | _ => []

/-- Each node of a sibling forest followed by its own descendants, in
document order. -/
def XmlForest.descAll : XmlForest → List XmlNode
  | .nil => []
  | .cons n f => n :: (n.descendants ++ f.descAll)

end

mutual

/-- Strict descendants of a node paired with their ancestor tag names
(nearest first, the node's own tag included, `anc` beyond it), in document
order. -/
def XmlNode.descendantsAnc : List String → XmlNode → List (List String × XmlNode)
  | anc, .elem t cs => XmlForest.descAncAll (t :: anc) cs
  | _, _ => []

/-- Descendant/ancestor-tag pairs of a sibling forest whose own ancestors
carry the tags `anc`. -/
def XmlForest.descAncAll : List String → XmlForest → List (List String × XmlNode)
  | _, .nil => []
  | anc, .cons n f =>
    (anc, n) :: (XmlNode.descendantsAnc anc n ++ XmlForest.descAncAll anc f)

end

/-- Does this node match a tag-name selector? -/
def XmlNode.hasTag (t : String) : XmlNode → Bool
  | .elem tg _ => tg == t
  | _ => false

/-- `Element.querySelector(tag)`: the first descendant element with the
given tag, in document order. -/
def querySelector (e : XmlNode) (t : String) : Option XmlNode :=
  (e.descendants.filter (XmlNode.hasTag t)).head?

/-- `Document.querySelectorAll(tag)` on a parsed document with root element
`doc`: every element of the document (the root included) with the given
tag, in document order. -/
def docSelectAll (doc : XmlNode) (t : String) : List XmlNode :=
  (doc :: doc.descendants).filter (XmlNode.hasTag t)

/-- `Document.querySelector(tag)`. -/
def docQuerySelector (doc : XmlNode) (t : String) : Option XmlNode :=
  (docSelectAll doc t).head?

/-- `Element.querySelectorAll("outer inner")` (CSS descendant combinator,
resolved within the context element's subtree): every descendant with tag
`inner` having an ancestor with tag `outer`, in document order. -/
def selectNested (e : XmlNode) (outer inner : String) : List XmlNode :=
  (XmlNode.descendantsAnc [] e).filterMap fun p =>
    if XmlNode.hasTag inner p.2 && p.1.contains outer then some p.2 else none

/-- Characters matched by `.` in a JS regex without the `s` flag:
everything but a line terminator. -/
def isDotChar (c : Char) : Bool :=
  c ≠ '\n' && c ≠ '\r' && c ≠ '\u2028' && c ≠ '\u2029'

/-- `l.take (l.length - n)`: drop the last `n` characters. -/
def dropRightL (l : List Char) (n : Nat) : List Char :=
  l.take (l.length - n)

/-- The seven characters the regex `^\[CDATA\[` requires. -/
def cdataOpen : List Char := ['[', 'C', 'D', 'A', 'T', 'A', '[']

/-- Does the JS regex `^\[CDATA\[(.*)\]\]$` (no `s`/`m` flags) match the
whole string?  It does exactly when the string is `[CDATA[` ++ m ++ `]]`
for a middle `m` free of line terminators. -/
def cdataMatchesL (l : List Char) : Bool :=
  l.take 7 == cdataOpen && decide (9 ≤ l.length) &&
    l.drop (l.length - 2) == [']', ']'] &&
    (dropRightL (l.drop 7) 2).all isDotChar

/-- `s.replace(/^\[CDATA\[(.*)\]\]$/, "$1")`: when the wrapper regex
matches, keep only the captured middle; otherwise the string passes through
unchanged. -/
def cdataStrip (s : String) : String :=
  if cdataMatchesL s.data then String.mk (dropRightL (s.data.drop 7) 2) else s

/-- `getCData(element, tagName)`: text content of the first descendant with
the given tag, CDATA-wrapper-stripped; the empty string when the tag is
absent (source lines 44–48).  (`?.replace(...) || ''` returns the stripped
text, with `''` for a missing node or empty text.) -/
def getCData (element : XmlNode) (tagName : String) : String :=
  match querySelector element tagName with
  | none => ""
  | some node => cdataStrip node.textContent

/-- The wire-shaped vendor record built by `parseXMLResponse`
(`Field59Video` interface, source lines 12–34). -/
structure Field59Video where
  key : String
  title : String
  category : String
  tags : List String
  url : String
  adaptiveStream : String
  duration : String
  summary : String
  description : String
  thumbFull : String
  thumbSmall : String
  thumbMedium : String
  playlists : List String
  createDate : String
  lastModifiedDate : String
  liveDate : String
  owner : String
  user : String
  id : String

/-- The record constructed for one `video` element inside
`parseXMLResponse`'s map (source lines 58–84).  Each field is extracted
from this element alone. -/
def extractVideo (videoEl : XmlNode) : Field59Video :=
  { key := getCData videoEl "key"
    title := getCData videoEl "title"
    category := getCData videoEl "category"
    tags := (selectNested videoEl "tags" "tag").map fun tag => cdataStrip tag.textContent
    url := getCData videoEl "url"
    adaptiveStream := getCData videoEl "adaptive_stream"
    duration := getCData videoEl "duration"
    summary := getCData videoEl "summary"
    description := getCData videoEl "description"
    thumbFull := getCData videoEl "thumb"
    thumbSmall := getCData videoEl "thumbSmall"
    thumbMedium := getCData videoEl "thumbMedium"
    playlists := (selectNested videoEl "playlists" "playlist").map fun playlist =>
      cdataStrip playlist.textContent
    createDate := getCData videoEl "createDate"
    lastModifiedDate := getCData videoEl "lastModifiedDate"
    liveDate := getCData videoEl "liveDate"
    owner := getCData videoEl "owner"
    user := getCData videoEl "user"
    id := getCData videoEl "id" }

/-- `parseXMLResponse` (source lines 53–85) after the ambient `DOMParser`
has produced the DOM `xmlDoc`: select all `video` elements at any depth and
build one record per element, in document order. -/
def parseXMLResponse (xmlDoc : XmlNode) : List Field59Video :=
  (docSelectAll xmlDoc "video").map extractVideo

/-- An unreduced fraction modelling a finite JS number.  Every value the
service computes on the claims' inputs is an integer with denominator `1`,
where this representation is canonical; fractions only arise from decimal
points or negative exponents in vendor duration strings. -/
structure JSRat where
  n : Int
  d : Nat
deriving DecidableEq

/-- Embed a natural number. -/
def JSRat.ofNat (k : Nat) : JSRat := ⟨k, 1⟩

/-- Fraction multiplication. -/
def JSRat.mul (a b : JSRat) : JSRat := ⟨a.n * b.n, a.d * b.d⟩

/-- Fraction addition. -/
def JSRat.add (a b : JSRat) : JSRat := ⟨a.n * b.d + b.n * a.d, a.d * b.d⟩

/-- Fraction negation. -/
def JSRat.neg (a : JSRat) : JSRat := ⟨-a.n, a.d⟩

/-- A JS number as far as this service can observe one: `NaN`, a signed
infinity, or a finite value.  (Every finite value the service computes on
the claims' inputs is small enough for doubles to be exact.) -/
inductive JSNum where
  | nan : JSNum
  | inf (pos : Bool) : JSNum
  | num (q : JSRat) : JSNum
deriving DecidableEq

/-- JS multiplication on the observable fragment (the denominators built
below are always positive, so the sign of `q.n` is the sign of `q`). -/
def JSNum.mul : JSNum → JSNum → JSNum
  | .nan, _ => .nan
  | _, .nan => .nan
  | .inf a, .inf b => .inf (a == b)
  | .inf a, .num q => if q.n = 0 then .nan else .inf (a == decide (0 < q.n))
  | .num q, .inf a => if q.n = 0 then .nan else .inf (a == decide (0 < q.n))
  | .num p, .num q => .num (p.mul q)

/-- JS addition on the observable fragment. -/
def JSNum.add : JSNum → JSNum → JSNum
  | .nan, _ => .nan
  | _, .nan => .nan
  | .inf a, .inf b => if a = b then .inf a else .nan
  | .inf a, .num _ => .inf a
  | .num _, .inf a => .inf a
  | .num p, .num q => .num (p.add q)

/-- Whitespace trimmed by JS `Number(string)` (the ASCII white space and
line terminators). -/
def jsWhitespace (c : Char) : Bool :=
  c = ' ' || c = '\t' || c = '\n' || c = '\r' || c = '\x0b' || c = '\x0c'

/-- Decimal digit? -/
def isDigitChar (c : Char) : Bool := '0' ≤ c && c ≤ '9'

/-- Hexadecimal digit? -/
def isHexDigitChar (c : Char) : Bool :=
  isDigitChar c || ('a' ≤ c && c ≤ 'f') || ('A' ≤ c && c ≤ 'F')

/-- Octal digit? -/
def isOctDigitChar (c : Char) : Bool := '0' ≤ c && c ≤ '7'

/-- Binary digit? -/
def isBinDigitChar (c : Char) : Bool := c = '0' || c = '1'

/-- Value of a digit character (radix ≤ 16). -/
def digitVal (c : Char) : Nat :=
  if isDigitChar c then c.toNat - 48
  else if 'a' ≤ c then c.toNat - 87
  else c.toNat - 55

/-- Value of a digit string in a given radix. -/
def radixVal (r : Nat) (l : List Char) : JSRat :=
  l.foldl (fun a c => (a.mul (JSRat.ofNat r)).add (JSRat.ofNat (digitVal c))) (JSRat.ofNat 0)

/-- Value of a decimal digit string as a natural number (used for
exponents). -/
def natDigitsVal (l : List Char) : Nat :=
  l.foldl (fun a c => a * 10 + digitVal c) 0

/-- Finish a decimal literal: after the mantissa, either nothing remains or
an `e`/`E` exponent part; anything else is not a numeric literal. -/
def applyExpPart (m : JSRat) : List Char → Option JSRat
  | [] => some m
  | c :: rest =>
    if c = 'e' || c = 'E' then
      let p := match rest with
        | '+' :: ds => (true, ds)
        | '-' :: ds => (false, ds)
        | ds => (true, ds)
      if p.2 ≠ [] && p.2.all isDigitChar then
        some (if p.1 then m.mul (JSRat.ofNat (10 ^ natDigitsVal p.2))
          else ⟨m.n, m.d * 10 ^ natDigitsVal p.2⟩)
      else none
    else none

/-- An unsigned JS decimal literal: `digits [. digits] [exp]` or
`. digits [exp]`. -/
def parseDecLit (cs : List Char) : Option JSRat :=
  let ip := cs.takeWhile isDigitChar
  let r1 := cs.dropWhile isDigitChar
  match r1 with
  | '.' :: r2 =>
    let fp := r2.takeWhile isDigitChar
    let r3 := r2.dropWhile isDigitChar
    if ip.isEmpty && fp.isEmpty then none
    else applyExpPart ((radixVal 10 ip).add ⟨natDigitsVal fp, 10 ^ fp.length⟩) r3
  | _ => if ip.isEmpty then none else applyExpPart (radixVal 10 ip) r1

/-- An unsigned JS numeric string after an optional sign: `Infinity` or a
decimal literal. -/
def parseUnsignedJS (pos : Bool) (cs : List Char) : JSNum :=
  if cs = "Infinity".data then JSNum.inf pos
  else match parseDecLit cs with
    | some q => JSNum.num (if pos then q else q.neg)
    | none => JSNum.nan

/-- A signed JS decimal numeric string. -/
def parseSignedJS : List Char → JSNum
  | '+' :: rest => parseUnsignedJS true rest
  | '-' :: rest => parseUnsignedJS false rest
  | cs => parseUnsignedJS true cs

/-- JS `Number(string)` on the character list: trim whitespace; empty →
`0`; `0x`/`0o`/`0b` radix literals (unsigned); else a signed decimal
literal or `Infinity`; anything else → `NaN`. -/
def jsNumberList (cs0 : List Char) : JSNum :=
  let cs := ((cs0.dropWhile jsWhitespace).reverse.dropWhile jsWhitespace).reverse
  match cs with
  | [] => JSNum.num (JSRat.ofNat 0)
  | '0' :: c :: rest =>
    if c = 'x' || c = 'X' then
      if rest ≠ [] && rest.all isHexDigitChar then JSNum.num (radixVal 16 rest) else JSNum.nan
    else if c = 'o' || c = 'O' then
      if rest ≠ [] && rest.all isOctDigitChar then JSNum.num (radixVal 8 rest) else JSNum.nan
    else if c = 'b' || c = 'B' then
      if rest ≠ [] && rest.all isBinDigitChar then JSNum.num (radixVal 2 rest) else JSNum.nan
    else parseSignedJS ('0' :: c :: rest)
  | cs => parseSignedJS cs

/-- JS `Number(string)`. -/
def jsNumber (s : String) : JSNum := jsNumberList s.data

/-- JS `string.split(":")` on the character list. -/
def splitColonChars : List Char → List (List Char)
  | [] => [[]]
  | c :: cs =>
    if c = ':' then [] :: splitColonChars cs
    else match splitColonChars cs with
      | [] => [[c]]
      | h :: t => (c :: h) :: t

/-- JS `durationStr.split(":")`. -/
def jsSplitColon (s : String) : List String :=
  (splitColonChars s.data).map String.mk

/-- JS `a || b` on strings: `a` when truthy (non-empty), else `b`. -/
def jsOr (a b : String) : String := if a = "" then b else a

/-- `parseDuration` (inner function of `convertToLocalVideo`, source lines
280–298): `undefined` (`none`) for the empty string; the `Number` coercion
when it is not `NaN`; else split on `:` and combine 3 parts as
`H*3600 + M*60 + S` or 2 parts as `M*60 + S` (JS arithmetic, so `NaN`
propagates); `undefined` for any other part count. -/
def parseDuration (durationStr : String) : Option JSNum :=
  if durationStr = "" then none
  else if jsNumber durationStr ≠ JSNum.nan then some (jsNumber durationStr)
  else
    let parts := (jsSplitColon durationStr).map jsNumber
    if h3 : parts.length = 3 then
      some (JSNum.add
        (JSNum.add (JSNum.mul (parts.get ⟨0, by omega⟩) (JSNum.num (JSRat.ofNat 3600)))
          (JSNum.mul (parts.get ⟨1, by omega⟩) (JSNum.num (JSRat.ofNat 60))))
        (parts.get ⟨2, by omega⟩))
    else if h2 : parts.length = 2 then
      some (JSNum.add (JSNum.mul (parts.get ⟨0, by omega⟩) (JSNum.num (JSRat.ofNat 60)))
        (parts.get ⟨1, by omega⟩))
    else none

/-- The nested vendor-metadata bag of the local record (source lines
310–320). -/
structure Field59Meta where
  key : String
  category : String
  tags : List String
  adaptiveStream : String
  summary : String
  description : String
  playlists : List String
  lastModifiedDate : String
  owner : String

/-- The application-shaped record returned by `convertToLocalVideo`.
String fields use the code's own convention that `''` is the falsy
"absent" value (the parser yields `''` for a missing element, and `||`
fallbacks treat `''` as absent); `duration` is genuinely optional
(`undefined` ↦ `none`). -/
structure LocalVideo where
  id : String
  title : String
  url : String
  thumbnail : String
  duration : Option JSNum
  createdAt : String
  format : String
  status : String
  field59 : Field59Meta

/-- `convertToLocalVideo` (source lines 278–322).  `now` is the value of
`new Date().toISOString()` at mapping time, used only when the vendor
record has no `createDate` (JS `||`). -/
def convertToLocalVideo (now : String) (field59Video : Field59Video) : LocalVideo :=
  { id := field59Video.key
    title := field59Video.title
    url := jsOr field59Video.url field59Video.adaptiveStream
    thumbnail := jsOr field59Video.thumbMedium field59Video.thumbFull
    duration := parseDuration field59Video.duration
    createdAt := jsOr field59Video.createDate now
    format := "mp4"
    status := "ready"
    field59 :=
      { key := field59Video.key
        category := field59Video.category
        tags := field59Video.tags
        adaptiveStream := field59Video.adaptiveStream
        summary := field59Video.summary
        description := field59Video.description
        playlists := field59Video.playlists
        lastModifiedDate := field59Video.lastModifiedDate
        owner := field59Video.owner } }

/-- What axios hands the catch blocks about a failed HTTP call that did
get a response: the status, and the `message` field of the response
payload when the body parses as an error payload carrying one
(`error.response.data?.message`). -/
structure ErrorResponse where
  status : Nat
  message : Option String
deriving DecidableEq

/-- A failed transport call as the catch blocks see it: an axios error
(`axios.isAxiosError(error)`), with `response` absent when no HTTP
response arrived at all (connection refused, DNS failure, timeout), or
some other thrown value. -/
inductive TransportError where
  | axios (response : Option ErrorResponse)
  | other (e : String)
deriving DecidableEq

/-- What a service method ends up throwing: a fresh `new Error(msg)`, or
the original non-axios value rethrown unchanged. -/
inductive Thrown where
  | newError (msg : String)
  | rethrow (e : String)
deriving DecidableEq

/-- Outcome of the HTTP call a service method awaits: a response body
(already DOM-parsed, for the XML-returning endpoints) or a transport
failure. -/
inductive HttpResult where
  | success (body : XmlNode)
  | failure (e : TransportError)

/-- `error.response?.status`. -/
def respStatus (r : Option ErrorResponse) : Option Nat :=
  r.map fun q => q.status

/-- `error.response?.data?.message`, with the absent case collapsed to `''`
(both `undefined` and `''` are falsy on the left of `||`). -/
def respMessage (r : Option ErrorResponse) : String :=
  (r.bind fun q => q.message).getD ""

/-- `listVideos` (source lines 101–136) given the outcome of its HTTP
call: on success, the parsed videos; on an axios failure, 401 →
`Invalid Field59 credentials`, else the payload's message when present,
else the generic message (there is no 404 branch); a non-axios value is
rethrown. -/
def listVideosResult : HttpResult → Except Thrown (List Field59Video)
  | .success body => .ok (parseXMLResponse body)
  | .failure (.axios resp) =>
    if respStatus resp = some 401 then .error (.newError "Invalid Field59 credentials")
    else .error (.newError (jsOr (respMessage resp) "Failed to fetch videos from Field59"))
  | .failure (.other e) => .error (.rethrow e)

/-- `getVideo` (source lines 243–273) given the outcome of its HTTP call:
on success, the first parsed video or `null`; on an axios failure, 401 →
`Invalid Field59 credentials`, 404 → `null` (the not-found signal, not an
error), else the payload's message when present, else the generic message;
a non-axios value is rethrown. -/
def getVideoResult : HttpResult → Except Thrown (Option Field59Video)
  | .success body =>
    let videos := parseXMLResponse body
    .ok (if h : 0 < videos.length then some (videos.get ⟨0, h⟩) else none)
  | .failure (.axios resp) =>
    if respStatus resp = some 401 then .error (.newError "Invalid Field59 credentials")
    else if respStatus resp = some 404 then .ok none
    else .error (.newError (jsOr (respMessage resp) "Failed to fetch video details"))
  | .failure (.other e) => .error (.rethrow e)

/-- `deleteVideo` (source lines 207–235) given the outcome of its HTTP
call: success returns nothing; on an axios failure, 401 →
`Invalid Field59 credentials`, 404 → `Video not found`, else the payload's
message when present, else the generic message; a non-axios value is
rethrown. -/
def deleteVideoResult : HttpResult → Except Thrown Unit
  | .success _ => .ok ()
  | .failure (.axios resp) =>
    if respStatus resp = some 401 then .error (.newError "Invalid Field59 credentials")
    else if respStatus resp = some 404 then .error (.newError "Video not found")
    else .error (.newError (jsOr (respMessage resp) "Failed to delete video from Field59"))
  | .failure (.other e) => .error (.rethrow e)

/-- `createVideoFromUrl`'s response handling and catch block (source lines
178–198): on success, the raw `textContent` of the document's first `key`
element (no CDATA strip is applied here); `!key` — the element missing or
its text empty — throws the missing-key error; on an axios failure, 401 →
`Invalid Field59 credentials`, else the payload's message when present,
else the generic message; a non-axios value is rethrown. -/
def createVideoResult : HttpResult → Except Thrown String
  | .success body =>
    match docQuerySelector body "key" with
    | none => .error (.newError "Failed to get video key from response")
    | some node =>
      if node.textContent = "" then .error (.newError "Failed to get video key from response")
      else .ok node.textContent
  | .failure (.axios resp) =>
    if respStatus resp = some 401 then .error (.newError "Invalid Field59 credentials")
    else .error (.newError (jsOr (respMessage resp) "Failed to create video in Field59"))
  | .failure (.other e) => .error (.rethrow e)

/-- Does `pat` occur as a contiguous substring of the character list? (Used
to state the well-formedness side condition "x does not contain `]]>`" of
the CDATA round-trip property.) -/
def hasSubstr : List Char → List Char → Bool
  | [], pat => pat.isEmpty
  | c :: tl, pat => pat.isPrefixOf (c :: tl) || hasSubstr tl pat

/-- An all-fields-empty vendor record: what `extractVideo` yields for a bare
`<video/>` element. -/
def emptyVendorVideo : Field59Video :=
  { key := "", title := "", category := "", tags := [], url := ""
    adaptiveStream := "", duration := "", summary := "", description := ""
    thumbFull := "", thumbSmall := "", thumbMedium := "", playlists := []
    createDate := "", lastModifiedDate := "", liveDate := "", owner := ""
    user := "", id := "" }

/-- Claim C1: for every (DOM-parsed) XML document, `parseXMLResponse`
returns exactly one `Field59Video` per `video` element at any depth, in
document order; the `k`-th record is extracted from the `k`-th `video`
element alone (so a malformed sibling cannot drop it or abort the rest);
and a missing child element yields the empty string for its field. -/
theorem parseXMLResponse_one_record_per_video (doc : XmlNode) :
    (parseXMLResponse doc).length = (docSelectAll doc "video").length ∧
    (∀ k : Nat, (parseXMLResponse doc)[k]? = ((docSelectAll doc "video")[k]?).map extractVideo) ∧
    (∀ e tag, querySelector e tag = none → getCData e tag = "") := by
  refine ⟨by simp [parseXMLResponse], fun k => by simp [parseXMLResponse, List.getElem?_map],
    fun e tag h => by simp [getCData, h]⟩

/-- Witness for C1 at a concrete document: a bare `video` element has no
`title` child, and its extracted title is the empty string. -/
theorem parseXMLResponse_one_record_per_video_witness :
    getCData (XmlNode.elem "video" XmlForest.nil) "title" = "" :=
  (parseXMLResponse_one_record_per_video (XmlNode.elem "video" XmlForest.nil)).2.2
    (XmlNode.elem "video" XmlForest.nil) "title" rfl

/-- Claim C2: `convertToLocalVideo` is total — it is a function into
`LocalVideo`, defined for every `Field59Video` (including the all-empty
record, see the gallery below) — and the canonical record's `id` is the
vendor record's `key`. -/
theorem convertToLocalVideo_id_eq_key (now : String) (v : Field59Video) :
    (convertToLocalVideo now v).id = v.key := rfl

/-- Claim C3, counterexample: the code does not map every unparseable
duration shape to "absent".  `":"` splits into two empty parts that JS
`Number` coerces to `0`, so the duration becomes `0` (the claim says never
zero); `"a:b"` has two non-numeric parts and maps to `NaN` (a number, not
absent); a whitespace-only string coerces to `0` outright. -/
theorem parseDuration_unparseable_counterexample :
    parseDuration ":" = some (JSNum.num ⟨0, 1⟩) ∧
    parseDuration "a:b" = some JSNum.nan ∧
    parseDuration " " = some (JSNum.num ⟨0, 1⟩) :=
  ⟨by decide, by decide, by decide⟩

/-- Claim C3 as amended: the five documented mappings hold, and a duration
string that JS `Number` does not coerce and whose colon-split has neither
two nor three parts maps to absent (`none`); strings `Number` coerces map
to that number, and two- or three-part splits map to the JS arithmetic on
the coerced parts, which is `0` for `":"` and `NaN` for `"a:b"` rather
than absent.  No input raises. -/
theorem parseDuration_spec_amended :
    parseDuration "125" = some (JSNum.num ⟨125, 1⟩) ∧
    parseDuration "02:05" = some (JSNum.num ⟨125, 1⟩) ∧
    parseDuration "01:02:05" = some (JSNum.num ⟨3725, 1⟩) ∧
    parseDuration "" = none ∧
    parseDuration "abc" = none ∧
    (∀ s : String, jsNumber s = JSNum.nan →
      (jsSplitColon s).length ≠ 2 → (jsSplitColon s).length ≠ 3 →
      parseDuration s = none) := by
  refine ⟨by decide, by decide, by decide, by decide, by decide, ?_⟩
  intro s hnan h2 h3
  by_cases hs : s = ""
  · simp [parseDuration, hs]
  · simp [parseDuration, hs, hnan, h2, h3]

/-- Witness for the amended C3 at a concrete input: a four-part split that
`Number` does not coerce maps to absent. -/
theorem parseDuration_spec_amended_witness :
    parseDuration "1:2:3:4" = none :=
  parseDuration_spec_amended.2.2.2.2.2 "1:2:3:4" (by decide) (by decide) (by decide)

/-- Claim C4, counterexample: there is no distinct `NetworkError` outcome.
A failure with no HTTP response at all (an axios error whose `response` is
absent — connection refused, DNS failure, timeout) is classified exactly
like an HTTP 500 vendor failure: both fall into the generic
vendor-error branch with the same generic message, for `listVideos` and
`getVideo` alike. -/
theorem networkError_not_distinct_counterexample :
    listVideosResult (.failure (.axios none))
      = .error (.newError "Failed to fetch videos from Field59") ∧
    listVideosResult (.failure (.axios (some ⟨500, none⟩)))
      = .error (.newError "Failed to fetch videos from Field59") ∧
    getVideoResult (.failure (.axios none))
      = .error (.newError "Failed to fetch video details") ∧
    getVideoResult (.failure (.axios (some ⟨500, none⟩)))
      = .error (.newError "Failed to fetch video details") :=
  ⟨rfl, rfl, rfl, rfl⟩

/-- Claim C4 as amended: HTTP 401 yields the invalid-credentials error on
every operation; HTTP 404 yields the not-found outcome (`null`) for
`getVideo` and the `Video not found` error for `deleteVideo`, while
`listVideos` has no 404 branch at all (any non-401 status, 404 included,
falls into the vendor-error branch); every other axios failure — a failure
with no HTTP response included — yields the vendor-error outcome, carrying
the payload's message when the body parses as an error payload with one,
else a generic description; and a non-axios throwable is rethrown
unclassified.  There is no distinct `NetworkError` kind. -/
theorem error_classification_amended :
    (∀ r, listVideosResult (.failure (.axios (some ⟨401, r⟩)))
      = .error (.newError "Invalid Field59 credentials")) ∧
    (∀ r, getVideoResult (.failure (.axios (some ⟨401, r⟩)))
      = .error (.newError "Invalid Field59 credentials")) ∧
    (∀ r, deleteVideoResult (.failure (.axios (some ⟨401, r⟩)))
      = .error (.newError "Invalid Field59 credentials")) ∧
    (∀ r, createVideoResult (.failure (.axios (some ⟨401, r⟩)))
      = .error (.newError "Invalid Field59 credentials")) ∧
    (∀ r, getVideoResult (.failure (.axios (some ⟨404, r⟩))) = .ok none) ∧
    (∀ r, deleteVideoResult (.failure (.axios (some ⟨404, r⟩)))
      = .error (.newError "Video not found")) ∧
    (∀ s r, s ≠ 401 → listVideosResult (.failure (.axios (some ⟨s, r⟩)))
      = .error (.newError (jsOr (respMessage (some ⟨s, r⟩)) "Failed to fetch videos from Field59"))) ∧
    (∀ s r, s ≠ 401 → s ≠ 404 → getVideoResult (.failure (.axios (some ⟨s, r⟩)))
      = .error (.newError (jsOr (respMessage (some ⟨s, r⟩)) "Failed to fetch video details"))) ∧
    listVideosResult (.failure (.axios none))
      = .error (.newError "Failed to fetch videos from Field59") ∧
    getVideoResult (.failure (.axios none))
      = .error (.newError "Failed to fetch video details") ∧
    deleteVideoResult (.failure (.axios none))
      = .error (.newError "Failed to delete video from Field59") ∧
    createVideoResult (.failure (.axios none))
      = .error (.newError "Failed to create video in Field59") ∧
    (∀ e, listVideosResult (.failure (.other e)) = .error (.rethrow e)) ∧
    (∀ e, getVideoResult (.failure (.other e)) = .error (.rethrow e)) := by
  refine ⟨fun r => rfl, fun r => rfl, fun r => rfl, fun r => rfl, fun r => rfl, fun r => rfl,
    ?_, ?_, rfl, rfl, rfl, rfl, fun e => rfl, fun e => rfl⟩
  · intro s r hs
    simp [listVideosResult, respStatus, hs]
  · intro s r hs h404
    simp [getVideoResult, respStatus, hs, h404]

/-- Witness for the amended C4 at concrete inputs: a 404 from `listVideos`
carrying a vendor message is raised as that vendor message (no `NotFound`
from `listVideos`), and a 500 with no parseable payload falls back to the
generic description. -/
theorem error_classification_amended_witness :
    listVideosResult (.failure (.axios (some ⟨404, some "boom"⟩)))
      = .error (.newError "boom") ∧
    getVideoResult (.failure (.axios (some ⟨500, none⟩)))
      = .error (.newError "Failed to fetch video details") := by
  constructor
  · have h := error_classification_amended.2.2.2.2.2.2.1 404 (some "boom") (by decide)
    simpa [respMessage, jsOr] using h
  · have h := error_classification_amended.2.2.2.2.2.2.2.1 500 none (by decide) (by decide)
    simpa [respMessage, jsOr] using h

/-- Claim C5, counterexample: the round-trip fails for a string that does
not contain `]]>` but itself matches the wrapper pattern.  The field text
`x = "[CDATA[a]]"` contains no `]]>` (so `<![CDATA[x]]>` is well-formed),
yet the extraction routine strips it once more and yields `"a" ≠ x`. -/
theorem cdata_roundtrip_counterexample :
    hasSubstr "[CDATA[a]]".data "]]>".data = false ∧
    getCData (XmlNode.elem "video"
        (forestOf [XmlNode.elem "title" (forestOf [XmlNode.cdata "[CDATA[a]]"])])) "title"
      = "a" ∧
    ("a" : String) ≠ "[CDATA[a]]" :=
  ⟨by decide, by decide, by decide⟩

/-- Claim C5 as amended: a field written as `<![CDATA[x]]>` has DOM text
content exactly `x`, and the extraction routine returns it unchanged
whenever `x` does not itself match the wrapper pattern
`^\[CDATA\[(.*)\]\]$` (an `x` that does match is stripped once more); in
general, text not matching the wrapper passes through `cdataStrip`
unchanged. -/
theorem cdata_roundtrip_amended :
    (∀ t x, (XmlNode.elem t (forestOf [XmlNode.cdata x])).textContent = x) ∧
    (∀ e t node, querySelector e t = some node →
      cdataMatchesL node.textContent.data = false → getCData e t = node.textContent) ∧
    (∀ s, cdataMatchesL s.data = false → cdataStrip s = s) := by
  refine ⟨fun t x => ?_, fun e t node hq hm => ?_, fun s hm => ?_⟩
  · show x ++ "" = x
    simp
  · simp [getCData, hq, cdataStrip, hm]
  · simp [cdataStrip, hm]

/-- Witness for the amended C5 at a concrete document: a `title` field
written as `<![CDATA[hello]]>` extracts to exactly `"hello"`. -/
theorem cdata_roundtrip_amended_witness :
    getCData (XmlNode.elem "video"
        (forestOf [XmlNode.elem "title" (forestOf [XmlNode.cdata "hello"])])) "title"
      = "hello" :=
  cdata_roundtrip_amended.2.1
    (XmlNode.elem "video" (forestOf [XmlNode.elem "title" (forestOf [XmlNode.cdata "hello"])]))
    "title" (XmlNode.elem "title" (forestOf [XmlNode.cdata "hello"])) rfl (by decide)

/-- Claim C6: `createVideoFromUrl` given the response body
`<video><key><![CDATA[abc123]]></key></video>` returns `"abc123"` (the DOM
text content of the CDATA section is `abc123`, and the `!key` guard passes);
given any response document with no `key` element, it throws the
missing-key error instead of returning a value. -/
theorem createVideoFromUrl_key_spec :
    createVideoResult (.success (XmlNode.elem "video"
        (forestOf [XmlNode.elem "key" (forestOf [XmlNode.cdata "abc123"])])))
      = .ok "abc123" ∧
    (∀ doc, docQuerySelector doc "key" = none →
      createVideoResult (.success doc)
        = .error (.newError "Failed to get video key from response")) := by
  refine ⟨rfl, fun doc h => ?_⟩
  simp [createVideoResult, h]

/-- Witness for C6 at a concrete document with no `key` element. -/
theorem createVideoFromUrl_key_spec_witness :
    createVideoResult (.success (XmlNode.elem "video" XmlForest.nil))
      = .error (.newError "Failed to get video key from response") :=
  createVideoFromUrl_key_spec.2 (XmlNode.elem "video" XmlForest.nil) rfl

/-- Claim C7: thumbnail selection in `convertToLocalVideo` prefers the
medium thumbnail URL when non-empty, else the full thumbnail URL, else the
absent value (the empty string — the code computes
`thumbnails.medium || thumbnails.full`, and in this codebase `''` is the
falsy "no value" that the parser itself produces for a missing element). -/
theorem thumbnail_selection (now : String) (v : Field59Video) :
    (v.thumbMedium ≠ "" → (convertToLocalVideo now v).thumbnail = v.thumbMedium) ∧
    (v.thumbMedium = "" → (convertToLocalVideo now v).thumbnail = v.thumbFull) ∧
    (v.thumbMedium = "" → v.thumbFull = "" → (convertToLocalVideo now v).thumbnail = "") := by
  refine ⟨fun h => ?_, fun h => ?_, fun h h' => ?_⟩
  · simp [convertToLocalVideo, jsOr, h]
  · simp [convertToLocalVideo, jsOr, h]
  · simp [convertToLocalVideo, jsOr, h, h']

/-- Witness for C7 at concrete records: a vendor record with no thumbnails
maps to the absent thumbnail, and one with only a medium thumbnail maps to
it. -/
theorem thumbnail_selection_witness :
    (convertToLocalVideo "2024-01-01T00:00:00.000Z" emptyVendorVideo).thumbnail = "" ∧
    (convertToLocalVideo "2024-01-01T00:00:00.000Z"
        { emptyVendorVideo with thumbMedium := "https://cdn.example/m.jpg" }).thumbnail
      = "https://cdn.example/m.jpg" :=
  ⟨(thumbnail_selection "2024-01-01T00:00:00.000Z" emptyVendorVideo).2.2 rfl rfl,
    (thumbnail_selection "2024-01-01T00:00:00.000Z"
      { emptyVendorVideo with thumbMedium := "https://cdn.example/m.jpg" }).1 (by decide)⟩

/-- Claim C8: URL selection in `convertToLocalVideo` is the vendor's direct
`url` when non-empty, else the `adaptiveStream` url. -/
theorem url_selection (now : String) (v : Field59Video) :
    (v.url ≠ "" → (convertToLocalVideo now v).url = v.url) ∧
    (v.url = "" → (convertToLocalVideo now v).url = v.adaptiveStream) := by
  refine ⟨fun h => ?_, fun h => ?_⟩
  · simp [convertToLocalVideo, jsOr, h]
  · simp [convertToLocalVideo, jsOr, h]

/-- Witness for C8 at a concrete record with an empty `url` and a non-empty
`adaptiveStream`. -/
theorem url_selection_witness :
    (convertToLocalVideo "2024-01-01T00:00:00.000Z"
        { emptyVendorVideo with adaptiveStream := "https://stream.example/v.m3u8" }).url
      = "https://stream.example/v.m3u8" :=
  (url_selection "2024-01-01T00:00:00.000Z"
    { emptyVendorVideo with adaptiveStream := "https://stream.example/v.m3u8" }).2 rfl

/-- Claim C9, counterexample: the key extraction in `createVideoFromUrl` is
NOT the shared field-extraction routine — it takes the raw `textContent` of
the `key` element without the CDATA-strip step.  On a document whose `key`
text is literally `[CDATA[x]]`, `createVideoFromUrl` returns
`"[CDATA[x]]"` while the shared routine (`getCData`) yields `"x"`. -/
theorem create_key_extraction_counterexample :
    createVideoResult (.success (XmlNode.elem "video"
        (forestOf [XmlNode.elem "key" (forestOf [XmlNode.text "[CDATA[x]]"])])))
      = .ok "[CDATA[x]]" ∧
    getCData (XmlNode.elem "video"
        (forestOf [XmlNode.elem "key" (forestOf [XmlNode.text "[CDATA[x]]"])])) "key"
      = "x" ∧
    ("[CDATA[x]]" : String) ≠ "x" :=
  ⟨rfl, by decide, by decide⟩

/-- Claim C9 as amended: `createVideoFromUrl` returns the raw `textContent`
of the document's first `key` element (throwing when it is missing or
empty); this agrees with the shared CDATA-stripping extraction exactly on
documents whose key text does not itself match the wrapper pattern
`^\[CDATA\[(.*)\]\]$`. -/
theorem create_key_raw_extraction (doc node : XmlNode)
    (hq : docQuerySelector doc "key" = some node)
    (hne : node.textContent ≠ "") :
    createVideoResult (.success doc) = .ok node.textContent ∧
    (cdataMatchesL node.textContent.data = false →
      createVideoResult (.success doc) = .ok (cdataStrip node.textContent)) := by
  constructor
  · simp [createVideoResult, hq, hne]
  · intro hm
    simp [createVideoResult, hq, hne, cdataStrip, hm]

/-- Witness for the amended C9 at a concrete create-response document. -/
theorem create_key_raw_extraction_witness :
    createVideoResult (.success (XmlNode.elem "video"
        (forestOf [XmlNode.elem "key" (forestOf [XmlNode.cdata "abc123"])])))
      = .ok "abc123" :=
  (create_key_raw_extraction
    (XmlNode.elem "video" (forestOf [XmlNode.elem "key" (forestOf [XmlNode.cdata "abc123"])]))
    (XmlNode.elem "key" (forestOf [XmlNode.cdata "abc123"]))
    rfl (by decide)).1

/-- Claim C10: when `getVideo`'s HTTP call succeeds, the result is the
first record `parseXMLResponse` yields, and `null` (`none`) exactly when
the document has no `video` element — so at the public interface a 200
response with an empty document is the same outcome as the 404 not-found
signal. -/
theorem getVideo_first_or_null :
    (∀ body, getVideoResult (.success body) = .ok (parseXMLResponse body).head?) ∧
    (∀ body, docSelectAll body "video" = [] → getVideoResult (.success body) = .ok none) ∧
    (∀ r, getVideoResult (.failure (.axios (some ⟨404, r⟩))) = .ok none) := by
  have hfirst : ∀ body, getVideoResult (.success body) = .ok (parseXMLResponse body).head? := by
    intro body
    show Except.ok (if h : 0 < (parseXMLResponse body).length
      then some ((parseXMLResponse body).get ⟨0, h⟩) else none) = _
    cases parseXMLResponse body <;> simp
  refine ⟨hfirst, fun body h => ?_, fun r => rfl⟩
  rw [hfirst body]
  simp [parseXMLResponse, h]

/-- Witness for C10 at a concrete empty list document. -/
theorem getVideo_first_or_null_witness :
    getVideoResult (.success (XmlNode.elem "videos" XmlForest.nil)) = .ok none :=
  getVideo_first_or_null.2.1 (XmlNode.elem "videos" XmlForest.nil) rfl
